import Mathlib

/-!
Shallow embedding of the Polly-API Python client (src/client.py) and proofs
about its specified behaviour.

The client is four functions over HTTP/JSON: register_user, get_polls,
vote_on_poll, get_poll_results.  We model JSON values, HTTP responses, and an
injectable transport; each client function returns its outcome together with
the list of requests it sent, so that the property of issuing zero network
calls is directly expressible.

Error taxonomy: the Python code signals errors through exception classes
(ValueError, requests.HTTPError, PermissionError, FileNotFoundError); the
specification splits these by role into the kinds of its section 7.  The
ApiError type below carries one constructor per kind, and each raise site in
the source is mapped to the kind the specification assigns to that site:
  - pre-network ValueError            -> invalidArgument
  - parse-failure requests.HTTPError and the
    not-an-array / not-an-object ValueError on the 200 path -> protocolError
  - the 400-path ValueError in register_user                -> invalidRequest
  - PermissionError on 401            -> unauthorized
  - FileNotFoundError on 404          -> notFound
  - raise_for_status requests.HTTPError                     -> httpError
  - an uncaught Python AttributeError (calling .get on a parsed JSON value
    that is not a dict)               -> attributeError (outside the taxonomy)
-/

namespace Polly

/-- JSON values as parsed by Python json: None, bool, number, string, list,
dict (field list in source order; numbers modelled as integers, which covers
every value the claims exercise). -/
inductive Json where
  | null : Json
  | bool (b : Bool) : Json
  | num (n : Int) : Json
  | str (s : String) : Json
  | arr (xs : List Json) : Json
  | obj (fields : List (String × Json)) : Json

/-- Python truthiness of a JSON-derived value: None, False, 0, empty string,
empty list and empty dict are falsy, everything else truthy. -/
def Json.truthy : Json → Bool
  | .null => false
  | .bool b => b
  | .num n => !(n == 0)
  | .str s => !(s == "")
  | .arr xs => !xs.isEmpty
  | .obj fs => !fs.isEmpty

/-- Truthiness of an optional JSON value (the result of dict.get, which is
None when the key is absent). -/
def optTruthy : Option Json → Bool
  | none => false
  | some j => j.truthy

/-- dict.get on a parsed JSON object: Python json keeps the last value for a
duplicated key, hence the lookup over the reversed field list. -/
def pyGet (fields : List (String × Json)) (k : String) : Option Json :=
  (fields.reverse.find? (fun p => p.1 == k)).map (fun p => p.2)

/-- The single-quote character, written via its code point. -/
def sq : String := String.singleton (Char.ofNat 39)

mutual

/-- Python repr of a JSON-derived value, as used by str() on lists and dicts.
Strings are shown single-quoted (the escaping Python applies to quote
characters inside the string is not modelled; no claim exercises it). -/
def pyRepr : Json → String
  | .null => "None"
  | .bool true => "True"
  | .bool false => "False"
  | .num n => toString n
  | .str s => sq ++ s ++ sq
  | .arr xs => "[" ++ String.intercalate ", " (pyReprList xs) ++ "]"
  | .obj fs => "\x7b" ++ String.intercalate ", " (pyReprFields fs) ++ "\x7d"

/-- repr of each element of a parsed JSON list. -/
def pyReprList : List Json → List String
  | [] => []
  | x :: xs => pyRepr x :: pyReprList xs

/-- repr of each key-value pair of a parsed JSON dict. -/
def pyReprFields : List (String × Json) → List String
  | [] => []
  | (k, v) :: fs => (sq ++ k ++ sq ++ ": " ++ pyRepr v) :: pyReprFields fs

end

/-- Python str() of a JSON-derived value, as applied by an f-string: a string
formats as itself, every other value as its repr. -/
def pyStr : Json → String
  | .str s => s
  | .null => pyRepr .null
  | .bool b => pyRepr (.bool b)
  | .num n => pyRepr (.num n)
  | .arr xs => pyRepr (.arr xs)
  | .obj fs => pyRepr (.obj fs)

/-- str() of an optional JSON value (None prints as None; only reached on
truthy values in the client). -/
def pyStrOf : Option Json → String
  | none => "None"
  | some j => pyStr j

/-- An HTTP response as the client observes it: status code, the result of
response.json() (none models a json parse ValueError), the raw response.text,
and response.url. -/
structure Response where
  status : Nat
  jsonBody : Option Json
  text : String
  url : String

/-- An HTTP request as built by the client. -/
structure Request where
  method : String
  url : String
  params : List (String × String)
  headers : List (String × String)
  body : Option Json

/-- The injectable transport (requests module or a caller Session): one
synchronous exchange per request. -/
structure Transport where
  respond : Request → Response

/-- A transport answering every request with the same fixed response. -/
def constT (r : Response) : Transport := ⟨fun _ => r⟩

/-- Error outcomes, one constructor per specification error kind (section 7),
plus attributeError for the uncaught Python AttributeError raised when the
source calls .get on a parsed JSON value that is not a dict. -/
inductive ApiError where
  | invalidArgument (msg : String) : ApiError
  | protocolError (msg : String) : ApiError
  | invalidRequest (msg : String) : ApiError
  | unauthorized (msg : String) : ApiError
  | notFound (msg : String) : ApiError
  | httpError (status : Nat) (body : String) : ApiError
  | attributeError : ApiError

/-- Outcome of a client call: a JSON success value or a typed error. -/
abbrev Outcome := Except ApiError Json

/-- base_url.rstrip of the slash character: drop every trailing slash. -/
def rstripSlash (s : String) : String :=
  String.mk ((s.data.reverse.dropWhile (fun c => c == Char.ofNat 47)).reverse)

/-- requests raise_for_status raises exactly for status codes 400-599. -/
def raisesForStatus (status : Nat) : Bool :=
  400 ≤ status && status < 600

/-- The defensive tail shared by register_user, get_polls and vote_on_poll
after raise_for_status returned without raising: return parsed JSON if any,
else a dict of status_code and content. -/
def defensiveValue (resp : Response) : Json :=
  match resp.jsonBody with
  | some j => j
  | none => .obj [("status_code", .num resp.status), ("content", .str resp.text)]

/-- The 400-path message extraction of register_user:
error_json.get of detail, or error_json.get of message, or response.text,
where a json parse ValueError falls back to response.text and a parsed
non-dict body makes .get raise AttributeError. -/
def registerErrorMessage (resp : Response) : Except ApiError String :=
  match resp.jsonBody with
  | none => .ok resp.text
  | some (.obj fields) =>
      let d := pyGet fields "detail"
      let m := pyGet fields "message"
      .ok (if optTruthy d then pyStrOf d else if optTruthy m then pyStrOf m else resp.text)
  | some _ => .error .attributeError

/-- The 404-path detail extraction shared textually by vote_on_poll and
get_poll_results: detail is None, then err_json.get of detail or err_json.get
of message, a parse ValueError leaving detail as None, and a parsed non-dict
body making .get raise AttributeError. -/
def extractNotFoundDetail (resp : Response) : Except ApiError (Option Json) :=
  match resp.jsonBody with
  | none => .ok none
  | some (.obj fields) =>
      let d := pyGet fields "detail"
      .ok (if optTruthy d then d else pyGet fields "message")
  | some _ => .error .attributeError

/-- Response handling of register_user after the POST returned. -/
def registerHandle (url : String) (resp : Response) : Outcome :=
  if resp.status == 200 then
    match resp.jsonBody with
    | some j => .ok j
    | none => .error (.protocolError
        ("Expected JSON response from " ++ url ++ ", but failed to parse."))
  else if resp.status == 400 then
    match registerErrorMessage resp with
    | .ok msg => .error (.invalidRequest ("Registration failed (400): " ++ msg))
    | .error e => .error e
  else if raisesForStatus resp.status then
    .error (.httpError resp.status resp.text)
  else
    .ok (defensiveValue resp)

/-- The POST request built by register_user. -/
def registerRequest (username password base_url : String) : Request :=
  { method := "POST", url := rstripSlash base_url ++ "/register", params := [], headers := [],
    body := some (.obj [("username", .str username), ("password", .str password)]) }

/-- register_user: validate the credentials, POST to base_url/register, map
the response. The request list records every transport invocation. -/
def register_user (username password : String) (t : Transport)
    (base_url : String) : Outcome × List Request :=
  if username == "" then
    (.error (.invalidArgument "username must be a non-empty string"), [])
  else if password == "" then
    (.error (.invalidArgument "password must be a non-empty string"), [])
  else
    let req := registerRequest username password base_url
    let resp := t.respond req
    (registerHandle (rstripSlash base_url ++ "/register") resp, [req])

/-- Response handling of get_polls after the GET returned. -/
def getPollsHandle (resp : Response) : Outcome :=
  if resp.status == 200 then
    match resp.jsonBody with
    | none => .error (.protocolError
        ("Expected JSON array from " ++ resp.url ++ ", but failed to parse."))
    | some (.arr xs) => .ok (.arr xs)
    | some _ => .error (.protocolError "Expected response to be a JSON array of polls")
  else if raisesForStatus resp.status then
    .error (.httpError resp.status resp.text)
  else
    .ok (defensiveValue resp)

/-- The GET request built by get_polls. -/
def pollsRequest (skip limit : Int) (base_url : String) : Request :=
  { method := "GET", url := rstripSlash base_url ++ "/polls",
    params := [("skip", toString skip), ("limit", toString limit)],
    headers := [], body := none }

/-- get_polls: validate pagination, GET base_url/polls with skip and limit
params, map the response. -/
def get_polls (skip limit : Int) (t : Transport)
    (base_url : String) : Outcome × List Request :=
  if skip < 0 then
    (.error (.invalidArgument "skip must be a non-negative integer"), [])
  else if limit ≤ 0 then
    (.error (.invalidArgument "limit must be a positive integer"), [])
  else
    let req := pollsRequest skip limit base_url
    let resp := t.respond req
    (getPollsHandle resp, [req])

/-- Response handling of vote_on_poll after the POST returned. -/
def voteHandle (resp : Response) : Outcome :=
  if resp.status == 200 then
    match resp.jsonBody with
    | some j => .ok j
    | none => .error (.protocolError
        ("Expected JSON VoteOut from " ++ resp.url ++ ", but failed to parse."))
  else if resp.status == 401 then
    .error (.unauthorized "Unauthorized: missing or invalid token")
  else if resp.status == 404 then
    match extractNotFoundDetail resp with
    | .error e => .error e
    | .ok detail =>
        .error (.notFound
          (if optTruthy detail then "Not found: " ++ pyStrOf detail
           else "Not found: poll or option"))
  else if raisesForStatus resp.status then
    .error (.httpError resp.status resp.text)
  else
    .ok (defensiveValue resp)

/-- The POST request built by vote_on_poll. -/
def voteRequest (poll_id option_id : Int) (token base_url : String) : Request :=
  { method := "POST", url := rstripSlash base_url ++ "/polls/" ++ toString poll_id ++ "/vote",
    params := [], headers := [("Authorization", "Bearer " ++ token)],
    body := some (.obj [("option_id", .num option_id)]) }

/-- vote_on_poll: validate poll_id, option_id and token, POST to
base_url/polls/poll_id/vote with a bearer header, map the response. -/
def vote_on_poll (poll_id option_id : Int) (token : String) (t : Transport)
    (base_url : String) : Outcome × List Request :=
  if poll_id ≤ 0 then
    (.error (.invalidArgument "poll_id must be a positive integer"), [])
  else if option_id ≤ 0 then
    (.error (.invalidArgument "option_id must be a positive integer"), [])
  else if token == "" then
    (.error (.invalidArgument "token must be a non-empty string"), [])
  else
    let req := voteRequest poll_id option_id token base_url
    let resp := t.respond req
    (voteHandle resp, [req])

/-- Response handling of get_poll_results after the GET returned. -/
def getResultsHandle (resp : Response) : Outcome :=
  if resp.status == 200 then
    match resp.jsonBody with
    | none => .error (.protocolError
        ("Expected JSON PollResults from " ++ resp.url ++ ", but failed to parse."))
    | some (.obj fs) => .ok (.obj fs)
    | some _ => .error (.protocolError "Expected response to be a JSON object for poll results")
  else if resp.status == 404 then
    match extractNotFoundDetail resp with
    | .error e => .error e
    | .ok detail =>
        .error (.notFound
          (if optTruthy detail then "Poll not found: " ++ pyStrOf detail
           else "Poll not found"))
  else if raisesForStatus resp.status then
    .error (.httpError resp.status resp.text)
  else
    .ok (defensiveValue resp)

/-- The GET request built by get_poll_results. -/
def resultsRequest (poll_id : Int) (base_url : String) : Request :=
  { method := "GET", url := rstripSlash base_url ++ "/polls/" ++ toString poll_id ++ "/results",
    params := [], headers := [], body := none }

/-- get_poll_results: validate poll_id, GET base_url/polls/poll_id/results,
map the response. -/
def get_poll_results (poll_id : Int) (t : Transport)
    (base_url : String) : Outcome × List Request :=
  if poll_id ≤ 0 then
    (.error (.invalidArgument "poll_id must be a positive integer"), [])
  else
    let req := resultsRequest poll_id base_url
    let resp := t.respond req
    (getResultsHandle resp, [req])

/-! Shape predicates and outcome classifiers used to state the claims. -/

/-- Whether a JSON value is an array (a Python list). -/
def Json.isArr : Json → Bool
  | .arr _ => true
  | _ => false

/-- Whether a JSON value is an object (a Python dict). -/
def Json.isObj : Json → Bool
  | .obj _ => true
  | _ => false

/-- Whether an outcome is any error. -/
def isErr : Outcome → Bool
  | .error _ => true
  | .ok _ => false

/-- Whether an outcome is an InvalidArgumentError. -/
def isInvalidArg : Outcome → Bool
  | .error (.invalidArgument _) => true
  | _ => false

/-- Whether an outcome is an InvalidRequestError. -/
def isInvalidReq : Outcome → Bool
  | .error (.invalidRequest _) => true
  | _ => false

/-- Whether an outcome is a ProtocolError. -/
def isProtocolErr : Outcome → Bool
  | .error (.protocolError _) => true
  | _ => false

/-- Whether an outcome is a NotFoundError. -/
def isNotFoundErr : Outcome → Bool
  | .error (.notFound _) => true
  | _ => false

/-! Substring containment over the character lists of strings, used to state
that an error message contains an extracted detail. -/

/-- Whether pat occurs as a contiguous run inside s. -/
def strContainsAux (pat : List Char) : List Char → Bool
  | [] => pat.isPrefixOf []
  | c :: rest => pat.isPrefixOf (c :: rest) || strContainsAux pat rest

/-- Whether the string pat occurs inside the string s. -/
def strContains (s pat : String) : Bool :=
  strContainsAux pat.data s.data

lemma isPrefixOf_self (l : List Char) : l.isPrefixOf l = true := by
  induction l with
  | nil => rfl
  | cons c cs ih => simp [List.isPrefixOf, ih]

lemma strContainsAux_self (l : List Char) : strContainsAux l l = true := by
  cases l with
  | nil => rfl
  | cons c cs => simp [strContainsAux, isPrefixOf_self]

lemma strContainsAux_append (pat pre : List Char) :
    strContainsAux pat (pre ++ pat) = true := by
  induction pre with
  | nil => simpa using strContainsAux_self pat
  | cons c cs ih => simp [strContainsAux, ih]

/-- A string obtained by prepending other text to pat contains pat. -/
lemma strContains_append (pre pat : String) : strContains (pre ++ pat) pat = true := by
  unfold strContains
  rw [String.data_append]
  exact strContainsAux_append _ _

/-! Run lemmas: with valid arguments, each client function sends exactly its
one request and maps the transport response through its handler. -/

lemma register_user_valid (u p b : String) (t : Transport)
    (hu : u ≠ "") (hp : p ≠ "") :
    register_user u p t b =
      (registerHandle (rstripSlash b ++ "/register") (t.respond (registerRequest u p b)),
       [registerRequest u p b]) := by
  have hu2 : (u == "") = false := by rw [beq_eq_false_iff_ne]; exact hu
  have hp2 : (p == "") = false := by rw [beq_eq_false_iff_ne]; exact hp
  simp [register_user, hu2, hp2]

lemma get_polls_valid (skip limit : Int) (b : String) (t : Transport)
    (hs : 0 ≤ skip) (hl : 0 < limit) :
    get_polls skip limit t b =
      (getPollsHandle (t.respond (pollsRequest skip limit b)), [pollsRequest skip limit b]) := by
  have hs2 : ¬ skip < 0 := by omega
  have hl2 : ¬ limit ≤ 0 := by omega
  simp [get_polls, hs2, hl2]

lemma vote_on_poll_valid (pid oid : Int) (tok b : String) (t : Transport)
    (hpid : 0 < pid) (hoid : 0 < oid) (htok : tok ≠ "") :
    vote_on_poll pid oid tok t b =
      (voteHandle (t.respond (voteRequest pid oid tok b)), [voteRequest pid oid tok b]) := by
  have h1 : ¬ pid ≤ 0 := by omega
  have h2 : ¬ oid ≤ 0 := by omega
  have h3 : (tok == "") = false := by rw [beq_eq_false_iff_ne]; exact htok
  simp [vote_on_poll, h1, h2, h3]

lemma get_poll_results_valid (pid : Int) (b : String) (t : Transport)
    (hpid : 0 < pid) :
    get_poll_results pid t b =
      (getResultsHandle (t.respond (resultsRequest pid b)), [resultsRequest pid b]) := by
  have h1 : ¬ pid ≤ 0 := by omega
  simp [get_poll_results, h1]

/-! Handler dispatch lemmas: one per status branch that the claims exercise. -/

lemma raisesForStatus_true (s : Nat) (h1 : 400 ≤ s) (h2 : s < 600) :
    raisesForStatus s = true := by
  simp only [raisesForStatus, Bool.and_eq_true, decide_eq_true_eq]
  omega

lemma raisesForStatus_false (s : Nat) (h : ¬ (400 ≤ s ∧ s < 600)) :
    raisesForStatus s = false := by
  simp only [raisesForStatus, Bool.and_eq_false_iff, decide_eq_false_iff_not]
  omega

lemma registerHandle_200 (url : String) (resp : Response) (j : Json)
    (h : resp.status = 200) (hj : resp.jsonBody = some j) :
    registerHandle url resp = .ok j := by
  simp [registerHandle, h, hj]

lemma registerHandle_400 (url : String) (resp : Response) (msg : String)
    (h : resp.status = 400) (hm : registerErrorMessage resp = .ok msg) :
    registerHandle url resp = .error (.invalidRequest ("Registration failed (400): " ++ msg)) := by
  simp [registerHandle, h, hm]

lemma registerHandle_400_raise (url : String) (resp : Response) (e : ApiError)
    (h : resp.status = 400) (hm : registerErrorMessage resp = .error e) :
    registerHandle url resp = .error e := by
  simp [registerHandle, h, hm]

lemma registerHandle_http (url : String) (resp : Response)
    (h1 : 400 ≤ resp.status) (h2 : resp.status < 600) (h3 : resp.status ≠ 400) :
    registerHandle url resp = .error (.httpError resp.status resp.text) := by
  have e200 : (resp.status == 200) = false := by rw [beq_eq_false_iff_ne]; omega
  have e400 : (resp.status == 400) = false := by rw [beq_eq_false_iff_ne]; exact h3
  simp [registerHandle, e200, e400, raisesForStatus_true _ h1 h2]

lemma registerHandle_defensive (url : String) (resp : Response)
    (h1 : ¬ (400 ≤ resp.status ∧ resp.status < 600)) (h2 : resp.status ≠ 200) :
    registerHandle url resp = .ok (defensiveValue resp) := by
  have e200 : (resp.status == 200) = false := by rw [beq_eq_false_iff_ne]; exact h2
  have e400 : (resp.status == 400) = false := by rw [beq_eq_false_iff_ne]; omega
  simp [registerHandle, e200, e400, raisesForStatus_false _ h1]

lemma getPollsHandle_200_arr (resp : Response) (xs : List Json)
    (h : resp.status = 200) (hj : resp.jsonBody = some (.arr xs)) :
    getPollsHandle resp = .ok (.arr xs) := by
  simp [getPollsHandle, h, hj]

lemma getPollsHandle_200_none (resp : Response)
    (h : resp.status = 200) (hj : resp.jsonBody = none) :
    getPollsHandle resp =
      .error (.protocolError ("Expected JSON array from " ++ resp.url ++ ", but failed to parse.")) := by
  simp [getPollsHandle, h, hj]

lemma getPollsHandle_200_nonarr (resp : Response) (j : Json)
    (h : resp.status = 200) (hj : resp.jsonBody = some j) (hna : j.isArr = false) :
    getPollsHandle resp = .error (.protocolError "Expected response to be a JSON array of polls") := by
  cases j <;> simp_all [getPollsHandle, Json.isArr]

lemma voteHandle_200 (resp : Response) (j : Json)
    (h : resp.status = 200) (hj : resp.jsonBody = some j) :
    voteHandle resp = .ok j := by
  simp [voteHandle, h, hj]

lemma voteHandle_404 (resp : Response) (dopt : Option Json)
    (h : resp.status = 404) (hd : extractNotFoundDetail resp = .ok dopt) :
    voteHandle resp =
      .error (.notFound (if optTruthy dopt then "Not found: " ++ pyStrOf dopt
                         else "Not found: poll or option")) := by
  have e200 : (resp.status == 200) = false := by rw [beq_eq_false_iff_ne]; omega
  have e401 : (resp.status == 401) = false := by rw [beq_eq_false_iff_ne]; omega
  simp [voteHandle, e200, e401, h, hd]

lemma voteHandle_404_raise (resp : Response) (e : ApiError)
    (h : resp.status = 404) (hd : extractNotFoundDetail resp = .error e) :
    voteHandle resp = .error e := by
  have e200 : (resp.status == 200) = false := by rw [beq_eq_false_iff_ne]; omega
  have e401 : (resp.status == 401) = false := by rw [beq_eq_false_iff_ne]; omega
  simp [voteHandle, e200, e401, h, hd]

lemma getResultsHandle_200_obj (resp : Response) (fs : List (String × Json))
    (h : resp.status = 200) (hj : resp.jsonBody = some (.obj fs)) :
    getResultsHandle resp = .ok (.obj fs) := by
  simp [getResultsHandle, h, hj]

lemma getResultsHandle_200_nonobj (resp : Response) (j : Json)
    (h : resp.status = 200) (hj : resp.jsonBody = some j) (hno : j.isObj = false) :
    getResultsHandle resp =
      .error (.protocolError "Expected response to be a JSON object for poll results") := by
  cases j <;> simp_all [getResultsHandle, Json.isObj]

lemma getResultsHandle_404 (resp : Response) (dopt : Option Json)
    (h : resp.status = 404) (hd : extractNotFoundDetail resp = .ok dopt) :
    getResultsHandle resp =
      .error (.notFound (if optTruthy dopt then "Poll not found: " ++ pyStrOf dopt
                         else "Poll not found")) := by
  have e200 : (resp.status == 200) = false := by rw [beq_eq_false_iff_ne]; omega
  simp [getResultsHandle, e200, h, hd]

lemma getResultsHandle_404_raise (resp : Response) (e : ApiError)
    (h : resp.status = 404) (hd : extractNotFoundDetail resp = .error e) :
    getResultsHandle resp = .error e := by
  have e200 : (resp.status == 200) = false := by rw [beq_eq_false_iff_ne]; omega
  simp [getResultsHandle, e200, h, hd]

/-- A parsed non-dict body makes the shared 404 detail extraction raise
AttributeError. -/
lemma extractNotFoundDetail_nonobj (resp : Response) (j : Json)
    (hj : resp.jsonBody = some j) (hno : j.isObj = false) :
    extractNotFoundDetail resp = .error .attributeError := by
  cases j <;> simp_all [extractNotFoundDetail, Json.isObj]

/-- A parsed non-dict body makes the register 400 message extraction raise
AttributeError. -/
lemma registerErrorMessage_nonobj (resp : Response) (j : Json)
    (hj : resp.jsonBody = some j) (hno : j.isObj = false) :
    registerErrorMessage resp = .error .attributeError := by
  cases j <;> simp_all [registerErrorMessage, Json.isObj]

/-- A 404 whose extracted detail is a nonempty string d yields the vote
message Not found: d. -/
lemma voteHandle_404_str (resp : Response) (d : String) (h404 : resp.status = 404)
    (hex : extractNotFoundDetail resp = .ok (some (.str d))) (hd : d ≠ "") :
    voteHandle resp = .error (.notFound ("Not found: " ++ d)) := by
  have hd2 : (d == "") = false := by rw [beq_eq_false_iff_ne]; exact hd
  rw [voteHandle_404 resp (some (.str d)) h404 hex]
  simp [optTruthy, Json.truthy, hd2, pyStrOf, pyStr]

/-- A 404 whose extracted detail is a nonempty string d yields the results
message Poll not found: d. -/
lemma getResultsHandle_404_str (resp : Response) (d : String) (h404 : resp.status = 404)
    (hex : extractNotFoundDetail resp = .ok (some (.str d))) (hd : d ≠ "") :
    getResultsHandle resp = .error (.notFound ("Poll not found: " ++ d)) := by
  have hd2 : (d == "") = false := by rw [beq_eq_false_iff_ne]; exact hd
  rw [getResultsHandle_404 resp (some (.str d)) h404 hex]
  simp [optTruthy, Json.truthy, hd2, pyStrOf, pyStr]

/-! Claim theorems. -/

/-- C1, counterexample: for a 3xx response (status 301, non-JSON body),
register_user does not fail; it returns the raw status and content
dictionary, because raise_for_status only raises for statuses 400-599. -/
theorem register_redirect_returns_raw_dict :
    isErr (register_user "alice" "secret"
        (constT ⟨301, none, "moved", "u"⟩) "http://localhost:8000").1 = false ∧
    (register_user "alice" "secret"
        (constT ⟨301, none, "moved", "u"⟩) "http://localhost:8000").1 =
      .ok (.obj [("status_code", .num 301), ("content", .str "moved")]) :=
  ⟨rfl, rfl⟩

/-- C1, amended: for a response whose status is in 400-599 and differs from
400, register_user fails with HttpError carrying the status code and body;
for a status outside 400-599 other than 200 (1xx, non-200 2xx, 3xx),
register_user instead returns the parsed JSON body, or the raw status and
content dictionary when the body is not JSON. -/
theorem register_non_success_status_amended (u p b : String) (resp : Response)
    (hu : u ≠ "") (hp : p ≠ "") :
    (400 ≤ resp.status → resp.status < 600 → resp.status ≠ 400 →
      (register_user u p (constT resp) b).1 = .error (.httpError resp.status resp.text)) ∧
    (¬ (400 ≤ resp.status ∧ resp.status < 600) → resp.status ≠ 200 →
      (register_user u p (constT resp) b).1 = .ok (defensiveValue resp)) := by
  have hrun := register_user_valid u p b (constT resp) hu hp
  constructor
  · intro h1 h2 h3
    rw [hrun]
    exact registerHandle_http _ resp h1 h2 h3
  · intro h1 h2
    rw [hrun]
    exact registerHandle_defensive _ resp h1 h2

/-- C1, witness: a 503 with body down yields HttpError 503 down. -/
theorem register_non_success_status_amended_witness :
    (register_user "alice" "secret" (constT ⟨503, none, "down", "u"⟩) "b").1 =
      .error (.httpError 503 "down") :=
  (register_non_success_status_amended "alice" "secret" "b" ⟨503, none, "down", "u"⟩
    (by decide) (by decide)).1 (by decide) (by decide) (by decide)

/-- C2: for skip below zero or limit at most zero, get_polls fails with
InvalidArgumentError and sends no request through the transport. -/
theorem get_polls_invalid_args_local_error (skip limit : Int) (t : Transport) (b : String)
    (h : skip < 0 ∨ limit ≤ 0) :
    isInvalidArg (get_polls skip limit t b).1 = true ∧ (get_polls skip limit t b).2 = [] := by
  by_cases hs : skip < 0
  · simp [get_polls, hs, isInvalidArg]
  · have hl : limit ≤ 0 := h.resolve_left hs
    simp [get_polls, hs, hl, isInvalidArg]

/-- C2, witness: get_polls at skip -1 fails locally with an empty request
trace. -/
theorem get_polls_invalid_args_local_error_witness :
    isInvalidArg (get_polls (-1) 10 (constT ⟨200, none, "", "u"⟩) "b").1 = true ∧
    (get_polls (-1) 10 (constT ⟨200, none, "", "u"⟩) "b").2 = [] :=
  get_polls_invalid_args_local_error (-1) 10 (constT ⟨200, none, "", "u"⟩) "b"
    (Or.inl (by decide))

/-- C3: for a non-positive poll_id or option_id, or an empty token,
vote_on_poll fails with InvalidArgumentError and sends no request through
the transport. -/
theorem vote_invalid_args_local_error (pid oid : Int) (tok : String) (t : Transport) (b : String)
    (h : pid ≤ 0 ∨ oid ≤ 0 ∨ tok = "") :
    isInvalidArg (vote_on_poll pid oid tok t b).1 = true ∧
    (vote_on_poll pid oid tok t b).2 = [] := by
  by_cases h1 : pid ≤ 0
  · simp [vote_on_poll, h1, isInvalidArg]
  · by_cases h2 : oid ≤ 0
    · simp [vote_on_poll, h1, h2, isInvalidArg]
    · have h3 : tok = "" := by tauto
      simp [vote_on_poll, h1, h2, h3, isInvalidArg]

/-- C3, witness: vote_on_poll with an empty token fails locally with an
empty request trace. -/
theorem vote_invalid_args_local_error_witness :
    isInvalidArg (vote_on_poll 5 1 "" (constT ⟨200, none, "", "u"⟩) "b").1 = true ∧
    (vote_on_poll 5 1 "" (constT ⟨200, none, "", "u"⟩) "b").2 = [] :=
  vote_invalid_args_local_error 5 1 "" (constT ⟨200, none, "", "u"⟩) "b"
    (Or.inr (Or.inr rfl))

/-- C4, counterexample: a 400 response whose body parses as the JSON array
with the single element 1 makes register_user raise AttributeError (dict.get
on a list), not InvalidRequestError. -/
theorem register_400_nonobject_body_attribute_error :
    isInvalidReq (register_user "alice" "secret"
        (constT ⟨400, some (.arr [.num 1]), "[1]", "u"⟩) "b").1 = false ∧
    (register_user "alice" "secret"
        (constT ⟨400, some (.arr [.num 1]), "[1]", "u"⟩) "b").1 =
      .error .attributeError :=
  ⟨rfl, rfl⟩

/-- C4, amended: for a 400 response whose body fails to parse as JSON or
parses as a JSON object, register_user fails with InvalidRequestError whose
message appends, after the leading text Registration failed (400), the truthy
detail field, else the truthy message field, else the raw response text, and
thus contains the extracted text; for a 400 body that parses as non-object
JSON, register_user raises AttributeError instead. -/
theorem register_400_error_message_amended (u p b : String) (resp : Response)
    (fields : List (String × Json)) (j : Json) (d : String)
    (hu : u ≠ "") (hp : p ≠ "") (h400 : resp.status = 400) :
    (resp.jsonBody = none →
      (register_user u p (constT resp) b).1 =
        .error (.invalidRequest ("Registration failed (400): " ++ resp.text))) ∧
    (resp.jsonBody = some (.obj fields) → pyGet fields "detail" = some (.str d) → d ≠ "" →
      (register_user u p (constT resp) b).1 =
        .error (.invalidRequest ("Registration failed (400): " ++ d)) ∧
      strContains ("Registration failed (400): " ++ d) d = true) ∧
    (resp.jsonBody = some (.obj fields) → optTruthy (pyGet fields "detail") = false →
      pyGet fields "message" = some (.str d) → d ≠ "" →
      (register_user u p (constT resp) b).1 =
        .error (.invalidRequest ("Registration failed (400): " ++ d))) ∧
    (resp.jsonBody = some (.obj fields) → optTruthy (pyGet fields "detail") = false →
      optTruthy (pyGet fields "message") = false →
      (register_user u p (constT resp) b).1 =
        .error (.invalidRequest ("Registration failed (400): " ++ resp.text))) ∧
    (resp.jsonBody = some j → j.isObj = false →
      (register_user u p (constT resp) b).1 = .error .attributeError) := by
  have hrun := register_user_valid u p b (constT resp) hu hp
  refine ⟨?_, ?_, ?_, ?_, ?_⟩
  · intro hn
    have hmsg : registerErrorMessage resp = .ok resp.text := by
      simp [registerErrorMessage, hn]
    rw [hrun]
    exact registerHandle_400 _ resp _ h400 hmsg
  · intro hj hd hdne
    have hd2 : (d == "") = false := by rw [beq_eq_false_iff_ne]; exact hdne
    have hmsg : registerErrorMessage resp = .ok d := by
      simp [registerErrorMessage, hj, hd, optTruthy, Json.truthy, hd2, pyStrOf, pyStr]
    exact ⟨by rw [hrun]; exact registerHandle_400 _ resp _ h400 hmsg,
           strContains_append "Registration failed (400): " d⟩
  · intro hj hdf hm hmne
    have hm2 : (d == "") = false := by rw [beq_eq_false_iff_ne]; exact hmne
    have hmsg : registerErrorMessage resp = .ok d := by
      simp only [registerErrorMessage, hj]
      rw [hdf, hm]
      simp [optTruthy, Json.truthy, hm2, pyStrOf, pyStr]
    rw [hrun]
    exact registerHandle_400 _ resp _ h400 hmsg
  · intro hj hdf hmf
    have hmsg : registerErrorMessage resp = .ok resp.text := by
      simp [registerErrorMessage, hj, hdf, hmf]
    rw [hrun]
    exact registerHandle_400 _ resp _ h400 hmsg
  · intro hj hno
    have hmsg := registerErrorMessage_nonobj resp j hj hno
    rw [hrun]
    exact registerHandle_400_raise _ resp _ h400 hmsg

/-- C4, witness: a 400 with body whose detail field is Username already
registered yields InvalidRequestError containing that text. -/
theorem register_400_error_message_amended_witness :
    (register_user "alice" "secret"
        (constT ⟨400, some (.obj [("detail", .str "Username already registered")]), "t", "u"⟩)
        "b").1 =
      .error (.invalidRequest "Registration failed (400): Username already registered") ∧
    strContains "Registration failed (400): Username already registered"
      "Username already registered" = true :=
  (register_400_error_message_amended "alice" "secret" "b"
      ⟨400, some (.obj [("detail", .str "Username already registered")]), "t", "u"⟩
      [("detail", .str "Username already registered")] .null "Username already registered"
      (by decide) (by decide) rfl).2.1 rfl rfl (by decide)

/-- C5, counterexample: for a 404 with a non-JSON body, vote_on_poll fails
with NotFoundError whose message is Not found: poll or option, which neither
equals nor contains the generic message the claim states, namely poll or
option not found. -/
theorem vote_404_generic_message_mismatch :
    (vote_on_poll 5 1 "tok" (constT ⟨404, none, "", "u"⟩) "b").1 =
      .error (.notFound "Not found: poll or option") ∧
    strContains "Not found: poll or option" "poll or option not found" = false :=
  ⟨rfl, rfl⟩

/-- C5, amended: for a 404 response whose body fails to parse as JSON or
parses as a JSON object, vote_on_poll fails with NotFoundError; its message
carries the truthy detail field, else the truthy message field, after the
leading text Not found, and otherwise is the generic message Not found: poll or
option; for a 404 body that parses as non-object JSON, vote_on_poll raises
AttributeError instead. -/
theorem vote_404_error_message_amended (tok b : String) (pid oid : Int) (resp : Response)
    (fields : List (String × Json)) (j : Json) (d : String)
    (htok : tok ≠ "") (hpid : 0 < pid) (hoid : 0 < oid) (h404 : resp.status = 404) :
    (resp.jsonBody = none →
      (vote_on_poll pid oid tok (constT resp) b).1 =
        .error (.notFound "Not found: poll or option")) ∧
    (resp.jsonBody = some (.obj fields) → pyGet fields "detail" = some (.str d) → d ≠ "" →
      (vote_on_poll pid oid tok (constT resp) b).1 =
        .error (.notFound ("Not found: " ++ d)) ∧
      strContains ("Not found: " ++ d) d = true) ∧
    (resp.jsonBody = some (.obj fields) → optTruthy (pyGet fields "detail") = false →
      pyGet fields "message" = some (.str d) → d ≠ "" →
      (vote_on_poll pid oid tok (constT resp) b).1 =
        .error (.notFound ("Not found: " ++ d))) ∧
    (resp.jsonBody = some (.obj fields) → optTruthy (pyGet fields "detail") = false →
      optTruthy (pyGet fields "message") = false →
      (vote_on_poll pid oid tok (constT resp) b).1 =
        .error (.notFound "Not found: poll or option")) ∧
    (resp.jsonBody = some j → j.isObj = false →
      (vote_on_poll pid oid tok (constT resp) b).1 = .error .attributeError) := by
  have hrun := vote_on_poll_valid pid oid tok b (constT resp) hpid hoid htok
  refine ⟨?_, ?_, ?_, ?_, ?_⟩
  · intro hn
    have hex : extractNotFoundDetail resp = .ok none := by
      simp [extractNotFoundDetail, hn]
    rw [hrun]
    exact voteHandle_404 resp none h404 hex
  · intro hj hd hdne
    have hd2 : (d == "") = false := by rw [beq_eq_false_iff_ne]; exact hdne
    have hex : extractNotFoundDetail resp = .ok (some (.str d)) := by
      simp only [extractNotFoundDetail, hj]
      rw [hd]
      simp [optTruthy, Json.truthy, hd2]
    refine ⟨?_, strContains_append "Not found: " d⟩
    rw [hrun]
    show voteHandle resp = _
    rw [voteHandle_404 resp (some (.str d)) h404 hex]
    simp [optTruthy, Json.truthy, hd2, pyStrOf, pyStr]
  · intro hj hdf hm hmne
    have hm2 : (d == "") = false := by rw [beq_eq_false_iff_ne]; exact hmne
    have hex : extractNotFoundDetail resp = .ok (some (.str d)) := by
      simp only [extractNotFoundDetail, hj]
      rw [hdf, hm]
      simp
    rw [hrun]
    show voteHandle resp = _
    rw [voteHandle_404 resp (some (.str d)) h404 hex]
    simp [optTruthy, Json.truthy, hm2, pyStrOf, pyStr]
  · intro hj hdf hmf
    have hex : extractNotFoundDetail resp = .ok (pyGet fields "message") := by
      simp only [extractNotFoundDetail, hj]
      rw [hdf]
      simp
    rw [hrun]
    show voteHandle resp = _
    rw [voteHandle_404 resp (pyGet fields "message") h404 hex, hmf]
    simp
  · intro hj hno
    have hex := extractNotFoundDetail_nonobj resp j hj hno
    rw [hrun]
    exact voteHandle_404_raise resp _ h404 hex

/-- C5, witness: a 404 with detail option gone yields NotFoundError with
message Not found: option gone, which contains the detail. -/
theorem vote_404_error_message_amended_witness :
    (vote_on_poll 5 1 "tok"
        (constT ⟨404, some (.obj [("detail", .str "option gone")]), "", "u"⟩) "b").1 =
      .error (.notFound "Not found: option gone") ∧
    strContains "Not found: option gone" "option gone" = true :=
  (vote_404_error_message_amended "tok" "b" 5 1
      ⟨404, some (.obj [("detail", .str "option gone")]), "", "u"⟩
      [("detail", .str "option gone")] .null "option gone"
      (by decide) (by decide) (by decide) rfl).2.1 rfl rfl (by decide)

/-- C6: a 200 response to get_polls whose body is not JSON, or is JSON but
not an array, makes get_polls fail with ProtocolError. -/
theorem get_polls_200_bad_body_protocol_error (skip limit : Int) (b : String)
    (resp : Response) (j : Json)
    (hs : 0 ≤ skip) (hl : 0 < limit) (h200 : resp.status = 200) :
    (resp.jsonBody = none →
      isProtocolErr (get_polls skip limit (constT resp) b).1 = true) ∧
    (resp.jsonBody = some j → j.isArr = false →
      isProtocolErr (get_polls skip limit (constT resp) b).1 = true) := by
  have hrun := get_polls_valid skip limit b (constT resp) hs hl
  constructor
  · intro hn
    rw [hrun]
    show isProtocolErr (getPollsHandle resp) = true
    rw [getPollsHandle_200_none resp h200 hn]
    rfl
  · intro hj hna
    rw [hrun]
    show isProtocolErr (getPollsHandle resp) = true
    rw [getPollsHandle_200_nonarr resp j h200 hj hna]
    rfl

/-- C6, witness: a 200 whose body is the empty JSON object makes get_polls
fail with ProtocolError. -/
theorem get_polls_200_bad_body_protocol_error_witness :
    isProtocolErr (get_polls 0 10 (constT ⟨200, some (.obj []), "", "u"⟩) "b").1 = true :=
  (get_polls_200_bad_body_protocol_error 0 10 "b" ⟨200, some (.obj []), "", "u"⟩
      (.obj []) (by decide) (by decide) rfl).2 rfl rfl

/-- C7, counterexample: for a 404 whose body parses as the JSON number 1,
get_poll_results raises AttributeError (dict.get on an int), not
NotFoundError. -/
theorem get_results_404_nonobject_body_attribute_error :
    isNotFoundErr (get_poll_results 5 (constT ⟨404, some (.num 1), "1", "u"⟩) "b").1 = false ∧
    (get_poll_results 5 (constT ⟨404, some (.num 1), "1", "u"⟩) "b").1 =
      .error .attributeError :=
  ⟨rfl, rfl⟩

/-- C7, amended: for a 404 response whose body fails to parse as JSON or
parses as a JSON object, get_poll_results fails with NotFoundError; its
message carries the truthy detail field, else the truthy message field,
after the leading text Poll not found, and is the generic Poll not found
when neither field is truthy (also when the body does not parse); for a 404
body that parses as non-object JSON, get_poll_results raises AttributeError
instead. -/
theorem get_results_404_error_message_amended (b : String) (pid : Int) (resp : Response)
    (fields : List (String × Json)) (j : Json) (d : String)
    (hpid : 0 < pid) (h404 : resp.status = 404) :
    (resp.jsonBody = some (.obj fields) → pyGet fields "detail" = some (.str d) → d ≠ "" →
      (get_poll_results pid (constT resp) b).1 =
        .error (.notFound ("Poll not found: " ++ d)) ∧
      strContains ("Poll not found: " ++ d) d = true) ∧
    (resp.jsonBody = some (.obj fields) → optTruthy (pyGet fields "detail") = false →
      pyGet fields "message" = some (.str d) → d ≠ "" →
      (get_poll_results pid (constT resp) b).1 =
        .error (.notFound ("Poll not found: " ++ d))) ∧
    (resp.jsonBody = some (.obj fields) → optTruthy (pyGet fields "detail") = false →
      optTruthy (pyGet fields "message") = false →
      (get_poll_results pid (constT resp) b).1 = .error (.notFound "Poll not found")) ∧
    (resp.jsonBody = none →
      (get_poll_results pid (constT resp) b).1 = .error (.notFound "Poll not found")) ∧
    (resp.jsonBody = some j → j.isObj = false →
      (get_poll_results pid (constT resp) b).1 = .error .attributeError) := by
  have hrun := get_poll_results_valid pid b (constT resp) hpid
  refine ⟨?_, ?_, ?_, ?_, ?_⟩
  · intro hj hd hdne
    have hd2 : (d == "") = false := by rw [beq_eq_false_iff_ne]; exact hdne
    have hex : extractNotFoundDetail resp = .ok (some (.str d)) := by
      simp only [extractNotFoundDetail, hj]
      rw [hd]
      simp [optTruthy, Json.truthy, hd2]
    refine ⟨?_, strContains_append "Poll not found: " d⟩
    rw [hrun]
    show getResultsHandle resp = _
    rw [getResultsHandle_404 resp (some (.str d)) h404 hex]
    simp [optTruthy, Json.truthy, hd2, pyStrOf, pyStr]
  · intro hj hdf hm hmne
    have hm2 : (d == "") = false := by rw [beq_eq_false_iff_ne]; exact hmne
    have hex : extractNotFoundDetail resp = .ok (some (.str d)) := by
      simp only [extractNotFoundDetail, hj]
      rw [hdf, hm]
      simp
    rw [hrun]
    show getResultsHandle resp = _
    rw [getResultsHandle_404 resp (some (.str d)) h404 hex]
    simp [optTruthy, Json.truthy, hm2, pyStrOf, pyStr]
  · intro hj hdf hmf
    have hex : extractNotFoundDetail resp = .ok (pyGet fields "message") := by
      simp only [extractNotFoundDetail, hj]
      rw [hdf]
      simp
    rw [hrun]
    show getResultsHandle resp = _
    rw [getResultsHandle_404 resp (pyGet fields "message") h404 hex, hmf]
    simp
  · intro hn
    have hex : extractNotFoundDetail resp = .ok none := by
      simp [extractNotFoundDetail, hn]
    rw [hrun]
    exact getResultsHandle_404 resp none h404 hex
  · intro hj hno
    have hex := extractNotFoundDetail_nonobj resp j hj hno
    rw [hrun]
    exact getResultsHandle_404_raise resp _ h404 hex

/-- C7, witness: a 404 with detail poll missing on poll 5 yields
NotFoundError with message Poll not found: poll missing, which contains poll
missing. -/
theorem get_results_404_error_message_amended_witness :
    (get_poll_results 5
        (constT ⟨404, some (.obj [("detail", .str "poll missing")]), "", "u"⟩) "b").1 =
      .error (.notFound "Poll not found: poll missing") ∧
    strContains "Poll not found: poll missing" "poll missing" = true :=
  (get_results_404_error_message_amended "b" 5
      ⟨404, some (.obj [("detail", .str "poll missing")]), "", "u"⟩
      [("detail", .str "poll missing")] .null "poll missing"
      (by decide) rfl).1 rfl rfl (by decide)

/-- C8: a 200 response whose body parses as JSON is returned with structural
equality by register_user and vote_on_poll, and a 200 body parsing as an
array is returned element-for-element by get_polls. -/
theorem success_round_trip (u p tok b : String) (pid oid skip limit : Int)
    (resp : Response) (j : Json) (xs : List Json)
    (hu : u ≠ "") (hp : p ≠ "") (htok : tok ≠ "") (hpid : 0 < pid) (hoid : 0 < oid)
    (hs : 0 ≤ skip) (hl : 0 < limit) (h200 : resp.status = 200) :
    (resp.jsonBody = some j → (register_user u p (constT resp) b).1 = .ok j) ∧
    (resp.jsonBody = some j → (vote_on_poll pid oid tok (constT resp) b).1 = .ok j) ∧
    (resp.jsonBody = some (.arr xs) →
      (get_polls skip limit (constT resp) b).1 = .ok (.arr xs)) := by
  refine ⟨?_, ?_, ?_⟩
  · intro hj
    rw [register_user_valid u p b (constT resp) hu hp]
    exact registerHandle_200 _ resp j h200 hj
  · intro hj
    rw [vote_on_poll_valid pid oid tok b (constT resp) hpid hoid htok]
    exact voteHandle_200 resp j h200 hj
  · intro hj
    rw [get_polls_valid skip limit b (constT resp) hs hl]
    exact getPollsHandle_200_arr resp xs h200 hj

/-- C8, witness: the one-element poll array is passed through unchanged by
all three operations. -/
theorem success_round_trip_witness :
    (register_user "alice" "secret"
        (constT ⟨200, some (.arr [.obj [("id", .num 1), ("title", .str "Q")]]), "", "u"⟩)
        "b").1 = .ok (.arr [.obj [("id", .num 1), ("title", .str "Q")]]) ∧
    (vote_on_poll 5 1 "tok"
        (constT ⟨200, some (.arr [.obj [("id", .num 1), ("title", .str "Q")]]), "", "u"⟩)
        "b").1 = .ok (.arr [.obj [("id", .num 1), ("title", .str "Q")]]) ∧
    (get_polls 0 10
        (constT ⟨200, some (.arr [.obj [("id", .num 1), ("title", .str "Q")]]), "", "u"⟩)
        "b").1 = .ok (.arr [.obj [("id", .num 1), ("title", .str "Q")]]) := by
  have h := success_round_trip "alice" "secret" "tok" "b" 5 1 0 10
    ⟨200, some (.arr [.obj [("id", .num 1), ("title", .str "Q")]]), "", "u"⟩
    (.arr [.obj [("id", .num 1), ("title", .str "Q")]])
    [.obj [("id", .num 1), ("title", .str "Q")]]
    (by decide) (by decide) (by decide) (by decide) (by decide) (by decide) (by decide) rfl
  exact ⟨h.1 rfl, h.2.1 rfl, h.2.2 rfl⟩

/-- C9: a 200 body parsing as non-object JSON is returned as-is by
register_user and vote_on_poll (no top-level shape check), while
get_poll_results rejects it with ProtocolError. -/
theorem register_vote_no_shape_check (u p tok b : String) (pid oid rpid : Int)
    (resp : Response) (j : Json)
    (hu : u ≠ "") (hp : p ≠ "") (htok : tok ≠ "") (hpid : 0 < pid) (hoid : 0 < oid)
    (hrpid : 0 < rpid) (h200 : resp.status = 200) (hj : resp.jsonBody = some j)
    (hno : j.isObj = false) :
    (register_user u p (constT resp) b).1 = .ok j ∧
    (vote_on_poll pid oid tok (constT resp) b).1 = .ok j ∧
    isProtocolErr (get_poll_results rpid (constT resp) b).1 = true := by
  refine ⟨?_, ?_, ?_⟩
  · rw [register_user_valid u p b (constT resp) hu hp]
    exact registerHandle_200 _ resp j h200 hj
  · rw [vote_on_poll_valid pid oid tok b (constT resp) hpid hoid htok]
    exact voteHandle_200 resp j h200 hj
  · rw [get_poll_results_valid rpid b (constT resp) hrpid]
    show isProtocolErr (getResultsHandle resp) = true
    rw [getResultsHandle_200_nonobj resp j h200 hj hno]
    rfl

/-- C9, witness: a 200 body that is the JSON number 7 is returned by
register_user and vote_on_poll and rejected by get_poll_results. -/
theorem register_vote_no_shape_check_witness :
    (register_user "alice" "secret" (constT ⟨200, some (.num 7), "7", "u"⟩) "b").1 =
      .ok (.num 7) ∧
    (vote_on_poll 5 1 "tok" (constT ⟨200, some (.num 7), "7", "u"⟩) "b").1 =
      .ok (.num 7) ∧
    isProtocolErr (get_poll_results 5 (constT ⟨200, some (.num 7), "7", "u"⟩) "b").1 = true :=
  register_vote_no_shape_check "alice" "secret" "tok" "b" 5 1 5
    ⟨200, some (.num 7), "7", "u"⟩ (.num 7)
    (by decide) (by decide) (by decide) (by decide) (by decide) (by decide) rfl rfl rfl

/-- C10: detail and message are selected by truthiness, not presence: a body
whose detail field is the empty string falls back to the message field, and
with no truthy message register_user falls back to the raw response text
while vote_on_poll and get_poll_results use their generic not-found
messages. -/
theorem detail_truthiness_fallback (m t2 : String) (hm : m ≠ "") :
    (register_user "alice" "secret"
        (constT ⟨400, some (.obj [("detail", .str ""), ("message", .str m)]), t2, "u"⟩)
        "b").1 = .error (.invalidRequest ("Registration failed (400): " ++ m)) ∧
    (register_user "alice" "secret"
        (constT ⟨400, some (.obj [("detail", .str "")]), t2, "u"⟩) "b").1 =
      .error (.invalidRequest ("Registration failed (400): " ++ t2)) ∧
    (vote_on_poll 5 1 "tok"
        (constT ⟨404, some (.obj [("detail", .str ""), ("message", .str m)]), t2, "u"⟩)
        "b").1 = .error (.notFound ("Not found: " ++ m)) ∧
    (vote_on_poll 5 1 "tok"
        (constT ⟨404, some (.obj [("detail", .str "")]), t2, "u"⟩) "b").1 =
      .error (.notFound "Not found: poll or option") ∧
    (get_poll_results 5
        (constT ⟨404, some (.obj [("detail", .str ""), ("message", .str m)]), t2, "u"⟩)
        "b").1 = .error (.notFound ("Poll not found: " ++ m)) ∧
    (get_poll_results 5
        (constT ⟨404, some (.obj [("detail", .str "")]), t2, "u"⟩) "b").1 =
      .error (.notFound "Poll not found") := by
  have hm2 : (m == "") = false := by rw [beq_eq_false_iff_ne]; exact hm
  have g2 : pyGet [("detail", Json.str ""), ("message", Json.str m)] "message" =
      some (Json.str m) := rfl
  have hmsg1 : registerErrorMessage
      ⟨400, some (.obj [("detail", .str ""), ("message", .str m)]), t2, "u"⟩ = .ok m := by
    simp only [registerErrorMessage]
    rw [g2]
    simp [optTruthy, Json.truthy, hm2, pyStrOf, pyStr, pyGet]
  have hex1 : extractNotFoundDetail
      ⟨404, some (.obj [("detail", .str ""), ("message", .str m)]), t2, "u"⟩ =
      .ok (some (.str m)) := rfl
  refine ⟨?_, rfl, ?_, rfl, ?_, rfl⟩
  · rw [register_user_valid "alice" "secret" "b" _ (by decide) (by decide)]
    exact registerHandle_400 (rstripSlash "b" ++ "/register") _ m rfl hmsg1
  · rw [vote_on_poll_valid 5 1 "tok" "b" _ (by decide) (by decide) (by decide)]
    exact voteHandle_404_str _ m rfl hex1 hm
  · rw [get_poll_results_valid 5 "b" _ (by decide)]
    exact getResultsHandle_404_str _ m rfl hex1 hm

/-- C10, witness: with message gone and raw text raw, the fallback chain
produces the expected messages for all six cases. -/
theorem detail_truthiness_fallback_witness :
    (register_user "alice" "secret"
        (constT ⟨400, some (.obj [("detail", .str ""), ("message", .str "gone")]), "raw", "u"⟩)
        "b").1 = .error (.invalidRequest "Registration failed (400): gone") ∧
    (register_user "alice" "secret"
        (constT ⟨400, some (.obj [("detail", .str "")]), "raw", "u"⟩) "b").1 =
      .error (.invalidRequest "Registration failed (400): raw") ∧
    (vote_on_poll 5 1 "tok"
        (constT ⟨404, some (.obj [("detail", .str ""), ("message", .str "gone")]), "raw", "u"⟩)
        "b").1 = .error (.notFound "Not found: gone") ∧
    (vote_on_poll 5 1 "tok"
        (constT ⟨404, some (.obj [("detail", .str "")]), "raw", "u"⟩) "b").1 =
      .error (.notFound "Not found: poll or option") ∧
    (get_poll_results 5
        (constT ⟨404, some (.obj [("detail", .str ""), ("message", .str "gone")]), "raw", "u"⟩)
        "b").1 = .error (.notFound "Poll not found: gone") ∧
    (get_poll_results 5
        (constT ⟨404, some (.obj [("detail", .str "")]), "raw", "u"⟩) "b").1 =
      .error (.notFound "Poll not found") :=
  detail_truthiness_fallback "gone" "raw" (by decide)

end Polly
